import Mathlib

/-!
Shallow embedding of the coffee-shop backend (src/main.py, src/database.py,
src/schemas.py). Python floats are modelled as exact rationals; the Mongo
collections are modelled as lists of documents in insertion order, with
insert_one appending, find_one without filter returning the first document,
and ObjectId values modelled as natural numbers rendered with toString. The
global db handle is an Option: none models a missing DATABASE_URL or
DATABASE_NAME (degraded mode), some holds the collection content. Clock
readings are natural numbers passed explicitly.
-/

namespace CoffeeShop

/-- Pydantic model IngredientIn of main.py (lines 35-39): required name,
optional unit, required unit_cost and quantity. The field declarations are
plain type annotations, with no range constraint. -/
structure IngredientIn where
  name : String
  unit : Option String
  unit_cost : ℚ
  quantity : ℚ
deriving Repr, DecidableEq

/-- Pydantic model ProductIn of main.py (lines 41-45): required name and
price, optional category, ingredient list defaulting to empty. No range
constraint on price. -/
structure ProductIn where
  name : String
  price : ℚ
  category : Option String
  ingredients : List IngredientIn
deriving Repr, DecidableEq

/-- Response model ProductOut of main.py (lines 47-55). -/
structure ProductOut where
  id : String
  name : String
  category : Option String
  price : ℚ
  cost : ℚ
  margin_amount : ℚ
  margin_percent : ℚ
  ingredients : List IngredientIn
deriving Repr, DecidableEq

/-- Response model SettingsOut of main.py (lines 57-61): optional id plus
tax_rate. -/
structure SettingsOut where
  id : Option String
  tax_rate : ℚ
deriving Repr, DecidableEq

/-- Python expression x or 0 on a number: falsy (zero) is replaced by 0,
anything else is returned as is. Used inside compute_cost. -/
def pyOr0 (x : ℚ) : ℚ := if x = 0 then 0 else x

/-- compute_cost of main.py (lines 64-65): the sum over the ingredient list
of (unit_cost or 0) * (quantity or 0). -/
def compute_cost (ingredients : List IngredientIn) : ℚ :=
  (ingredients.map (fun i => pyOr0 i.unit_cost * pyOr0 i.quantity)).sum

/-- Python division, which raises ZeroDivisionError on a zero divisor and
otherwise returns the exact quotient. -/
def pyDiv (a b : ℚ) : Except String ℚ :=
  if b = 0 then .error "ZeroDivisionError" else .ok (a / b)

/-- The margin-percent expression of main.py (lines 133, 156, 179, 206):
(margin_amount / price * 100) if price else 0, with the division modelled
through pyDiv so that a raised ZeroDivisionError would be visible. The
guard is Python truthiness of price, that is price different from zero. -/
def marginPercentE (margin_amount price : ℚ) : Except String ℚ :=
  if price ≠ 0 then (pyDiv margin_amount price).map (· * 100) else .ok 0

/-- The same margin-percent expression with total rational division; agrees
with marginPercentE, which never errors (see the lemma below). -/
def margin_percent (margin_amount price : ℚ) : ℚ :=
  if price ≠ 0 then margin_amount / price * 100 else 0

lemma pyOr0_eq (x : ℚ) : pyOr0 x = x := by
  unfold pyOr0; split <;> simp_all

lemma marginPercentE_eq_ok (m p : ℚ) :
    marginPercentE m p = .ok (margin_percent m p) := by
  unfold marginPercentE margin_percent pyDiv
  by_cases h : p = 0 <;> simp [h, Except.map]

lemma compute_cost_eq_sum (l : List IngredientIn) :
    compute_cost l = (l.map (fun i => i.unit_cost * i.quantity)).sum := by
  unfold compute_cost
  simp [pyOr0_eq]

/-- C1: for ingredient lines with nonnegative unit_cost and quantity,
compute_cost is the sum of unit_cost * quantity over the lines and that sum
is nonnegative. -/
theorem compute_cost_sum_and_nonneg (l : List IngredientIn)
    (h : ∀ i ∈ l, 0 ≤ i.unit_cost ∧ 0 ≤ i.quantity) :
    compute_cost l = (l.map (fun i => i.unit_cost * i.quantity)).sum ∧
      0 ≤ compute_cost l := by
  refine ⟨compute_cost_eq_sum l, ?_⟩
  rw [compute_cost_eq_sum l]
  apply List.sum_nonneg
  intro x hx
  rcases List.mem_map.1 hx with ⟨i, hi, rfl⟩
  exact mul_nonneg (h i hi).1 (h i hi).2

/-- Witness for C1 at a concrete two-line ingredient list. -/
theorem compute_cost_sum_and_nonneg_witness :
    compute_cost [⟨"Coffee Beans", some "g", 2/100, 18⟩,
        ⟨"Cup", some "pc", 12/100, 1⟩] =
      (([⟨"Coffee Beans", some "g", 2/100, 18⟩,
        ⟨"Cup", some "pc", 12/100, 1⟩] : List IngredientIn).map
          (fun i => i.unit_cost * i.quantity)).sum ∧
      0 ≤ compute_cost [⟨"Coffee Beans", some "g", 2/100, 18⟩,
        ⟨"Cup", some "pc", 12/100, 1⟩] :=
  compute_cost_sum_and_nonneg _ (by intro i hi; fin_cases hi <;> norm_num)

/-- C9: compute_cost is invariant under permutation of the ingredient
list. -/
theorem compute_cost_perm (l₁ l₂ : List IngredientIn) (h : l₁.Perm l₂) :
    compute_cost l₁ = compute_cost l₂ := by
  unfold compute_cost
  exact (h.map (fun i => pyOr0 i.unit_cost * pyOr0 i.quantity)).sum_eq

/-- Witness for C9: swapping the two lines of a concrete list leaves the
cost unchanged. -/
theorem compute_cost_perm_witness :
    compute_cost [⟨"Cup", some "pc", 12/100, 1⟩,
        ⟨"Coffee Beans", some "g", 2/100, 18⟩] =
      compute_cost [⟨"Coffee Beans", some "g", 2/100, 18⟩,
        ⟨"Cup", some "pc", 12/100, 1⟩] :=
  compute_cost_perm _ _
    (List.Perm.swap (⟨"Coffee Beans", some "g", 2/100, 18⟩ : IngredientIn)
      (⟨"Cup", some "pc", 12/100, 1⟩ : IngredientIn) [])

/-- C2: the margin-percent expression never raises: it returns the quotient
times 100 when the price is positive and 0 when the price is zero, and the
guarded division always succeeds. -/
theorem margin_percent_spec (m p : ℚ) :
    marginPercentE m p = .ok (margin_percent m p) ∧
      (0 < p → margin_percent m p = m / p * 100) ∧
      (p = 0 → margin_percent m p = 0) := by
  refine ⟨marginPercentE_eq_ok m p, ?_, ?_⟩
  · intro hp
    unfold margin_percent
    rw [if_pos (ne_of_gt hp)]
  · intro hp
    unfold margin_percent
    simp [hp]

/-- Witness for C2 at price 3 with margin 252/100, and at price 0. -/
theorem margin_percent_spec_witness :
    marginPercentE (252/100) 3 = .ok (margin_percent (252/100) 3) ∧
      margin_percent (252/100) 3 = (252/100) / 3 * 100 ∧
      margin_percent 5 0 = 0 :=
  ⟨(margin_percent_spec (252/100) 3).1,
   (margin_percent_spec (252/100) 3).2.1 (by norm_num),
   (margin_percent_spec 5 0).2.2 rfl⟩

/-- A persisted settings document: Mongo ObjectId (modelled as a natural),
the tax_rate payload, and the timestamps stamped by create_document of
database.py. -/
structure SettingsDoc where
  oid : ℕ
  tax_rate : ℚ
  created_at : ℕ
  updated_at : ℕ
deriving Repr, DecidableEq

/-- create_document of database.py (lines 38-53) specialised to the settings
collection: copies the payload, stamps created_at and updated_at with the
current time (the two datetime.now calls are modelled as one clock reading
now), and inserts; fresh is the ObjectId assigned by the store. -/
def create_document_settings (store : List SettingsDoc) (now fresh : ℕ)
    (tax_rate : ℚ) : List SettingsDoc :=
  store ++ [⟨fresh, tax_rate, now, now⟩]

/-- Mongo update_one on the settings collection with filter on the id and
patch only on tax_rate, as issued by main.py line 93: the first
matching document gets tax_rate replaced; no other field of the document is
touched. -/
def settings_update_one : List SettingsDoc → ℕ → ℚ → List SettingsDoc
  | [], _, _ => []
  | d :: rest, i, tr =>
    if d.oid = i then { d with tax_rate := tr } :: rest
    else d :: settings_update_one rest i tr

/-- Mongo find_one on the settings collection with a filter on the id: the
first document whose id matches. -/
def settings_find_one (store : List SettingsDoc) (i : ℕ) :
    Option SettingsDoc :=
  store.find? (fun d => d.oid = i)

/-- The serialization of a settings document into SettingsOut, as done by
serialize_doc plus the SettingsOut construction of main.py (lines 83-84,
98-99): the ObjectId rendered as a string, and tax_rate read from the
document. -/
def settings_out_of (d : SettingsDoc) : SettingsOut :=
  ⟨some (toString d.oid), d.tax_rate⟩

/-- get_settings of main.py (lines 73-84), GET /api/settings. With no db it
returns the default tax_rate 1/10 without touching any store; otherwise it
reads the first settings document, creating one with tax_rate 1/10 first
when the collection is empty. Returns the response and the resulting
settings collection. -/
def get_settings (dbOpt : Option (List SettingsDoc)) (now fresh : ℕ) :
    SettingsOut × Option (List SettingsDoc) :=
  match dbOpt with
  | none => (⟨none, 1/10⟩, none)
  | some store =>
    match store.head? with
    | some doc => (settings_out_of doc, some store)
    | none =>
      let store' := create_document_settings store now fresh (1/10)
      match store'.head? with
      | some doc => (settings_out_of doc, some store')
      | none => (⟨none, 1/10⟩, some store')

/-- update_settings of main.py (lines 87-99), PUT /api/settings. With no db
it echoes the payload without persistence; otherwise it patches tax_rate on
the first existing settings document, or creates one with the payload when
none exists. Returns the response and the resulting settings collection. -/
def update_settings (dbOpt : Option (List SettingsDoc)) (now fresh : ℕ)
    (payload : ℚ) : SettingsOut × Option (List SettingsDoc) :=
  match dbOpt with
  | none => (⟨none, payload⟩, none)
  | some store =>
    match store.head? with
    | some existing =>
      let store' := settings_update_one store existing.oid payload
      match settings_find_one store' existing.oid with
      | some doc => (settings_out_of doc, some store')
      | none => (⟨none, 1/10⟩, some store')
    | none =>
      let store' := create_document_settings store now fresh payload
      match store'.head? with
      | some doc => (settings_out_of doc, some store')
      | none => (⟨none, 1/10⟩, some store')

lemma get_settings_nil (now fresh : ℕ) :
    get_settings (some []) now fresh =
      (⟨some (toString fresh), 1/10⟩, some [⟨fresh, 1/10, now, now⟩]) := by
  simp [get_settings, create_document_settings, settings_out_of]

lemma get_settings_cons (d : SettingsDoc) (rest : List SettingsDoc)
    (now fresh : ℕ) :
    get_settings (some (d :: rest)) now fresh =
      (⟨some (toString d.oid), d.tax_rate⟩, some (d :: rest)) := by
  simp [get_settings, settings_out_of]

lemma update_settings_nil (now fresh : ℕ) (tr : ℚ) :
    update_settings (some []) now fresh tr =
      (⟨some (toString fresh), tr⟩, some [⟨fresh, tr, now, now⟩]) := by
  simp [update_settings, create_document_settings, settings_out_of]

lemma update_settings_cons (d : SettingsDoc) (rest : List SettingsDoc)
    (now fresh : ℕ) (tr : ℚ) :
    update_settings (some (d :: rest)) now fresh tr =
      (⟨some (toString d.oid), tr⟩, some ({ d with tax_rate := tr } :: rest)) := by
  simp [update_settings, settings_update_one, settings_find_one,
    settings_out_of]

/-- C5 counterexample: a settings document written at time 0 is updated via
PUT /api/settings at time 5, yet its updated_at stays 0 instead of becoming
the time of the write; the update patch sets only tax_rate. -/
theorem update_settings_stale_updated_at :
    ((update_settings (some [⟨1, 1/10, 0, 0⟩]) 5 2 (2/10)).2.getD []).map
        SettingsDoc.updated_at = [0] ∧ (0 : ℕ) ≠ 5 := by
  constructor
  · rw [update_settings_cons]
    rfl
  · decide

/-- C5 amended: document creation stamps created_at and updated_at with the
current time (both when PUT creates the settings document and when GET
lazily creates the default one), but the settings update performed by
PUT /api/settings on an existing document replaces only tax_rate and leaves
created_at and updated_at unchanged. -/
theorem settings_write_timestamps :
    (∀ now fresh tr, (update_settings (some []) now fresh tr).2 =
        some [⟨fresh, tr, now, now⟩]) ∧
      (∀ now fresh, (get_settings (some []) now fresh).2 =
        some [⟨fresh, 1/10, now, now⟩]) ∧
      (∀ d rest now fresh tr,
        (update_settings (some (d :: rest)) now fresh tr).2 =
          some ({ d with tax_rate := tr } :: rest)) := by
  refine ⟨fun now fresh tr => ?_, fun now fresh => ?_,
    fun d rest now fresh tr => ?_⟩
  · rw [update_settings_nil]
  · rw [get_settings_nil]
  · rw [update_settings_cons]

/-- C6: the settings contract. Connected: GET returns the first settings
document, creating the default tax_rate 1/10 when the collection is empty;
PUT patches the existing document or creates one with the supplied value.
Degraded (no db): GET answers 1/10 and PUT echoes the payload, neither
producing any store. -/
theorem settings_contract :
    (∀ now fresh, get_settings none now fresh = (⟨none, 1/10⟩, none)) ∧
      (∀ now fresh tr, update_settings none now fresh tr =
        (⟨none, tr⟩, none)) ∧
      (∀ now fresh, get_settings (some []) now fresh =
        (⟨some (toString fresh), 1/10⟩, some [⟨fresh, 1/10, now, now⟩])) ∧
      (∀ d rest now fresh, get_settings (some (d :: rest)) now fresh =
        (⟨some (toString d.oid), d.tax_rate⟩, some (d :: rest))) ∧
      (∀ d rest now fresh tr,
        update_settings (some (d :: rest)) now fresh tr =
          (⟨some (toString d.oid), tr⟩,
            some ({ d with tax_rate := tr } :: rest))) ∧
      (∀ now fresh tr, update_settings (some []) now fresh tr =
        (⟨some (toString fresh), tr⟩, some [⟨fresh, tr, now, now⟩])) :=
  ⟨fun _ _ => rfl, fun _ _ _ => rfl, get_settings_nil, get_settings_cons,
    update_settings_cons, update_settings_nil⟩

/-- A persisted product document, as inserted by create_product of main.py
(lines 191-199) and stamped by create_document of database.py: payload
fields, the stored cost cache, and the creation timestamps. -/
structure ProductDoc where
  oid : ℕ
  name : String
  category : Option String
  price : ℚ
  ingredients : List IngredientIn
  cost : ℚ
  created_at : ℕ
  updated_at : ℕ
deriving Repr, DecidableEq

/-- The fixed degraded-mode sample menu of main.py (lines 106-126). -/
def sample_products : List ProductIn :=
  [⟨"Espresso", 3, some "Coffee",
     [⟨"Coffee Beans", some "g", 2/100, 18⟩,
      ⟨"Cup", some "pc", 12/100, 1⟩]⟩,
   ⟨"Latte 12oz", 9/2, some "Coffee",
     [⟨"Coffee Beans", some "g", 2/100, 18⟩,
      ⟨"Milk", some "ml", 1/1000, 220⟩,
      ⟨"Cup", some "pc", 12/100, 1⟩]⟩]

/-- Python builtin enumerate starting at index i, as used by the loop
for i, x in enumerate(sample) of main.py line 128. -/
def enumerate (i : ℕ) : List α → List (ℕ × α)
  | [] => []
  | x :: xs => (i, x) :: enumerate (i + 1) xs

/-- list_products of main.py (lines 102-169), GET /api/products. With no db
it enumerates the fixed sample menu, ids being the stringified positions;
otherwise it loads every product document and rebuilds each response, in
both cases recomputing cost from the ingredients (the stored cost cache is
ignored) and deriving margin_amount and margin_percent. -/
def list_products (dbOpt : Option (List ProductDoc)) : List ProductOut :=
  match dbOpt with
  | none =>
    (enumerate 0 sample_products).map (fun p =>
      let ings := p.2.ingredients
      let cost := compute_cost ings
      let price := p.2.price
      let margin_amount := price - cost
      ⟨toString p.1, p.2.name, p.2.category, price, cost, margin_amount,
        margin_percent margin_amount price, ings⟩)
  | some docs =>
    docs.map (fun d =>
      let ings := d.ingredients
      let price := d.price
      let cost := compute_cost ings
      let margin_amount := price - cost
      ⟨toString d.oid, d.name, d.category, price, cost, margin_amount,
        margin_percent margin_amount price, ings⟩)

/-- create_product of main.py (lines 172-216), POST /api/products. With no
db it answers the computed product with the sentinel id temp and persists
nothing; otherwise it inserts the document through create_document (which
stamps both timestamps with the current time), re-reads it by its ObjectId
and rebuilds the response from the stored document, recomputing cost. The
final match arm is unreachable when fresh is a new ObjectId. Returns the
response and the resulting product collection. -/
def create_product (dbOpt : Option (List ProductDoc)) (now fresh : ℕ)
    (payload : ProductIn) : ProductOut × Option (List ProductDoc) :=
  let ings := payload.ingredients
  let cost := compute_cost ings
  match dbOpt with
  | none =>
    let price := payload.price
    let margin_amount := price - cost
    (⟨"temp", payload.name, payload.category, price, cost, margin_amount,
       margin_percent margin_amount price, ings⟩, none)
  | some docs =>
    let doc : ProductDoc :=
      ⟨fresh, payload.name, payload.category, payload.price, ings, cost,
        now, now⟩
    let docs' := docs ++ [doc]
    match docs'.find? (fun d => d.oid = fresh) with
    | some d =>
      let ings_db := d.ingredients
      let price := d.price
      let cost2 := compute_cost ings_db
      let margin_amount := price - cost2
      (⟨toString d.oid, d.name, d.category, price, cost2, margin_amount,
         margin_percent margin_amount price, ings_db⟩, some docs')
    | none =>
      (⟨"temp", payload.name, payload.category, payload.price, cost,
         payload.price - cost,
         margin_percent (payload.price - cost) payload.price, ings⟩,
       some docs')

lemma list_products_fields (dbOpt : Option (List ProductDoc))
    (o : ProductOut) (h : o ∈ list_products dbOpt) :
    o.cost = compute_cost o.ingredients ∧
      o.margin_amount = o.price - o.cost ∧
      o.margin_percent = margin_percent (o.price - o.cost) o.price := by
  cases dbOpt with
  | none =>
    simp only [list_products] at h
    rcases List.mem_map.1 h with ⟨p, hp, rfl⟩
    exact ⟨rfl, rfl, rfl⟩
  | some docs =>
    simp only [list_products] at h
    rcases List.mem_map.1 h with ⟨d, hd, rfl⟩
    exact ⟨rfl, rfl, rfl⟩

lemma create_product_fields (dbOpt : Option (List ProductDoc))
    (now fresh : ℕ) (payload : ProductIn) :
    ((create_product dbOpt now fresh payload).1).cost =
        compute_cost ((create_product dbOpt now fresh payload).1).ingredients ∧
      ((create_product dbOpt now fresh payload).1).margin_amount =
        ((create_product dbOpt now fresh payload).1).price -
          ((create_product dbOpt now fresh payload).1).cost ∧
      ((create_product dbOpt now fresh payload).1).margin_percent =
        margin_percent
          (((create_product dbOpt now fresh payload).1).price -
            ((create_product dbOpt now fresh payload).1).cost)
          ((create_product dbOpt now fresh payload).1).price := by
  cases dbOpt with
  | none => exact ⟨rfl, rfl, rfl⟩
  | some docs =>
    simp only [create_product]
    split
    · exact ⟨rfl, rfl, rfl⟩
    · exact ⟨rfl, rfl, rfl⟩

/-- C3: in every product response built by list_products or create_product,
margin_amount is exactly price minus cost, and whenever cost exceeds price
the margin_amount is strictly negative, never clamped to zero. -/
theorem margin_never_clamped :
    (∀ dbOpt, ∀ o ∈ list_products dbOpt,
        o.margin_amount = o.price - o.cost ∧
          (o.cost > o.price → o.margin_amount < 0)) ∧
      (∀ dbOpt now fresh payload,
        ((create_product dbOpt now fresh payload).1).margin_amount =
            ((create_product dbOpt now fresh payload).1).price -
              ((create_product dbOpt now fresh payload).1).cost ∧
          (((create_product dbOpt now fresh payload).1).cost >
              ((create_product dbOpt now fresh payload).1).price →
            ((create_product dbOpt now fresh payload).1).margin_amount < 0)) := by
  constructor
  · intro dbOpt o h
    obtain ⟨-, h2, -⟩ := list_products_fields dbOpt o h
    exact ⟨h2, fun hc => by rw [h2]; exact sub_neg.mpr hc⟩
  · intro dbOpt now fresh payload
    obtain ⟨-, h2, -⟩ := create_product_fields dbOpt now fresh payload
    exact ⟨h2, fun hc => by rw [h2]; exact sub_neg.mpr hc⟩

/-- Witness for C3: a degraded-mode creation whose ingredient cost 3 exceeds
the price 2 yields margin_amount price minus cost, strictly negative. -/
theorem margin_never_clamped_witness :
    ((create_product none 0 0 ⟨"Mocha", 2, none, [⟨"x", none, 3, 1⟩]⟩).1).margin_amount =
        ((create_product none 0 0 ⟨"Mocha", 2, none, [⟨"x", none, 3, 1⟩]⟩).1).price -
          ((create_product none 0 0 ⟨"Mocha", 2, none, [⟨"x", none, 3, 1⟩]⟩).1).cost ∧
      ((create_product none 0 0 ⟨"Mocha", 2, none, [⟨"x", none, 3, 1⟩]⟩).1).margin_amount < 0 :=
  ⟨(margin_never_clamped.2 none 0 0 ⟨"Mocha", 2, none, [⟨"x", none, 3, 1⟩]⟩).1,
   (margin_never_clamped.2 none 0 0 ⟨"Mocha", 2, none, [⟨"x", none, 3, 1⟩]⟩).2
     (by norm_num [create_product, compute_cost, pyOr0])⟩

lemma toString_nat_zero : toString (0 : ℕ) = "0" := rfl

lemma toString_nat_one : toString (1 : ℕ) = "1" := rfl

lemma toString_nat_seven : toString (7 : ℕ) = "7" := rfl

/-- C7: in degraded mode GET /api/products always returns exactly the fixed
two sample items with cost, margin_amount and margin_percent computed from
the sample ingredients; POST /api/products returns the sentinel id temp,
persists nothing, and a subsequent GET still returns the same two items. -/
theorem degraded_products_fixed :
    list_products none =
      [⟨"0", "Espresso", some "Coffee", 3, 48/100, 252/100, 84,
         [⟨"Coffee Beans", some "g", 2/100, 18⟩,
          ⟨"Cup", some "pc", 12/100, 1⟩]⟩,
       ⟨"1", "Latte 12oz", some "Coffee", 9/2, 7/10, 19/5, 760/9,
         [⟨"Coffee Beans", some "g", 2/100, 18⟩,
          ⟨"Milk", some "ml", 1/1000, 220⟩,
          ⟨"Cup", some "pc", 12/100, 1⟩]⟩] ∧
      (∀ now fresh payload,
        ((create_product none now fresh payload).1).id = "temp" ∧
          (create_product none now fresh payload).2 = none ∧
          list_products (create_product none now fresh payload).2 =
            list_products none) := by
  constructor
  · norm_num [list_products, sample_products, enumerate, compute_cost,
      pyOr0, margin_percent, toString_nat_zero, toString_nat_one]
  · intro now fresh payload
    exact ⟨rfl, rfl, rfl⟩

/-- C8, Scenario A: for the espresso ingredients (unit cost 2/100 at
quantity 18 and unit cost 12/100 at quantity 1) with price 3, the costing
yields cost 48/100, margin_amount 252/100 and margin_percent 84. -/
theorem scenario_a :
    compute_cost [⟨"Coffee Beans", some "g", 2/100, 18⟩,
        ⟨"Cup", some "pc", 12/100, 1⟩] = 48/100 ∧
      ((create_product none 0 0 ⟨"Espresso", 3, some "Coffee",
          [⟨"Coffee Beans", some "g", 2/100, 18⟩,
           ⟨"Cup", some "pc", 12/100, 1⟩]⟩).1).cost = 48/100 ∧
      ((create_product none 0 0 ⟨"Espresso", 3, some "Coffee",
          [⟨"Coffee Beans", some "g", 2/100, 18⟩,
           ⟨"Cup", some "pc", 12/100, 1⟩]⟩).1).margin_amount = 252/100 ∧
      ((create_product none 0 0 ⟨"Espresso", 3, some "Coffee",
          [⟨"Coffee Beans", some "g", 2/100, 18⟩,
           ⟨"Cup", some "pc", 12/100, 1⟩]⟩).1).margin_percent = 84 := by
  norm_num [create_product, compute_cost, pyOr0, margin_percent]

/-- A well-typed JSON object for one ingredient of a POST /api/products
body; none marks an absent field. -/
structure RawIngredient where
  name : Option String
  unit : Option String
  unit_cost : Option ℚ
  quantity : Option ℚ
deriving Repr, DecidableEq

/-- A well-typed JSON object for a POST /api/products body; none marks an
absent field. -/
structure RawProduct where
  name : Option String
  price : Option ℚ
  category : Option String
  ingredients : Option (List RawIngredient)
deriving Repr, DecidableEq

/-- Pydantic validation of the IngredientIn model of main.py (lines 35-39):
name, unit_cost and quantity are required, unit defaults to None. The field
declarations carry no numeric bound, so no range check is applied. -/
def IngredientIn.validate (r : RawIngredient) : Except String IngredientIn :=
  match r.name, r.unit_cost, r.quantity with
  | some n, some uc, some q => .ok ⟨n, r.unit, uc, q⟩
  | _, _, _ => .error "ValidationError: field required"

/-- Pydantic validation of a list of IngredientIn values, stopping at the
first invalid entry. -/
def validateIngredients : List RawIngredient → Except String (List IngredientIn)
  | [] => .ok []
  | r :: rest =>
    match IngredientIn.validate r, validateIngredients rest with
    | .ok i, .ok is => .ok (i :: is)
    | .error e, _ => .error e
    | .ok _, .error e => .error e

/-- Pydantic validation of the ProductIn model of main.py (lines 41-45):
name and price are required, category defaults to None, ingredients to the
empty list. The price declaration carries no lower bound. -/
def ProductIn.validate (r : RawProduct) : Except String ProductIn :=
  match r.name, r.price with
  | some n, some p =>
    match validateIngredients (r.ingredients.getD []) with
    | .ok ings => .ok ⟨n, p, r.category, ings⟩
    | .error e => .error e
  | _, _ => .error "ValidationError: field required"

/-- POST /api/products with its FastAPI boundary: the body is validated
against the ProductIn model of main.py and only then handed to
create_product. -/
def post_products (dbOpt : Option (List ProductDoc)) (now fresh : ℕ)
    (r : RawProduct) : Except String (ProductOut × Option (List ProductDoc)) :=
  (ProductIn.validate r).map (create_product dbOpt now fresh)

/-- Range constraints declared by the IngredientItem model of schemas.py
(lines 25-28): unit_cost, when present, and quantity must each be at least
0 (the ge=0 annotations), restricted to the two numeric fields that the API
models of main.py also carry. main.py imports these schemas (line 8) but
never applies them to request bodies. -/
def schemas_IngredientItem_range_ok (unit_cost : Option ℚ) (quantity : ℚ) :
    Prop :=
  (∀ v ∈ unit_cost, 0 ≤ v) ∧ 0 ≤ quantity

/-- Range constraint declared by the Product model of schemas.py (line 36):
price must be at least 0 (the ge=0 annotation). -/
def schemas_Product_price_ok (price : ℚ) : Prop := 0 ≤ price

/-- C4 evaluation: a POST /api/products body with price -1, unit_cost -2
and quantity -3 passes the boundary validation of main.py unchanged, the
costing runs, and a complete product (cost 6, margin_amount -7,
margin_percent 700) is returned, although the range constraints of the
repository schemas reject exactly these values. -/
theorem negative_input_accepted :
    post_products none 0 0
        ⟨some "X", some (-1), none,
          some [⟨some "i", none, some (-2), some (-3)⟩]⟩ =
      .ok (⟨"temp", "X", none, -1, 6, -7, 700,
        [⟨"i", none, -2, -3⟩]⟩, none) ∧
      ¬ schemas_IngredientItem_range_ok (some (-2)) (-3) ∧
      ¬ schemas_Product_price_ok (-1) := by
  refine ⟨?_, ?_, ?_⟩
  · norm_num [post_products, ProductIn.validate, IngredientIn.validate,
      validateIngredients, create_product, compute_cost, pyOr0,
      margin_percent, Except.map]
  · norm_num [schemas_IngredientItem_range_ok]
  · norm_num [schemas_Product_price_ok]

/-- C10: the margin-percent guard distinguishes only zero from nonzero
price, so a strictly negative price is divided by: the expression, the
degraded create_product, and every list_products response with negative
price all return (price - cost) / price * 100, and the ProductIn model
accepts a payload regardless of the sign of its price. -/
theorem negative_price_divides :
    (∀ m p : ℚ, p < 0 → margin_percent m p = m / p * 100) ∧
      (∀ (n : String) (p : ℚ) (c : Option String),
        ProductIn.validate ⟨some n, some p, c, some []⟩ =
          .ok ⟨n, p, c, []⟩) ∧
      (∀ now fresh payload, payload.price < 0 →
        ((create_product none now fresh payload).1).margin_percent =
          (payload.price - compute_cost payload.ingredients) /
            payload.price * 100) ∧
      (∀ docs, ∀ o ∈ list_products (some docs), o.price < 0 →
        o.margin_percent = (o.price - o.cost) / o.price * 100) := by
  have key : ∀ m p : ℚ, p < 0 → margin_percent m p = m / p * 100 := by
    intro m p hp
    unfold margin_percent
    rw [if_pos hp.ne]
  refine ⟨key, fun n p c => rfl, ?_, ?_⟩
  · intro now fresh payload hp
    show margin_percent
      (payload.price - compute_cost payload.ingredients) payload.price = _
    exact key _ _ hp
  · intro docs o h hp
    obtain ⟨-, -, h3⟩ := list_products_fields (some docs) o h
    rw [h3]
    exact key _ _ hp

/-- Witness for C10: price -1 with one ingredient costing 2 gives
margin_percent 300 through the degraded create_product, the validator
accepts the negative price, and a persisted document with price -1 and no
ingredients lists margin_percent 100. -/
theorem negative_price_divides_witness :
    margin_percent 5 (-2) = 5 / (-2) * 100 ∧
      ProductIn.validate ⟨some "X", some (-1), none, some []⟩ =
        .ok ⟨"X", -1, none, []⟩ ∧
      ((create_product none 0 0 ⟨"X", -1, none,
          [⟨"i", none, 2, 1⟩]⟩).1).margin_percent =
        ((-1 : ℚ) - compute_cost [⟨"i", none, 2, 1⟩]) / (-1) * 100 ∧
      ((⟨"7", "Bad", none, -1, 0, -1, 100, []⟩ : ProductOut).margin_percent =
        (((⟨"7", "Bad", none, -1, 0, -1, 100, []⟩ : ProductOut)).price -
            ((⟨"7", "Bad", none, -1, 0, -1, 100, []⟩ : ProductOut)).cost) /
          ((⟨"7", "Bad", none, -1, 0, -1, 100, []⟩ : ProductOut)).price * 100) :=
  ⟨negative_price_divides.1 5 (-2) (by norm_num),
   negative_price_divides.2.1 "X" (-1) none,
   negative_price_divides.2.2.1 0 0 ⟨"X", -1, none, [⟨"i", none, 2, 1⟩]⟩
     (by norm_num),
   negative_price_divides.2.2.2 [⟨7, "Bad", none, -1, [], 0, 0, 0⟩]
     ⟨"7", "Bad", none, -1, 0, -1, 100, []⟩
     (by norm_num [list_products, compute_cost, margin_percent,
       toString_nat_seven])
     (by norm_num)⟩

end CoffeeShop
